import Mathlib

/-!
Shallow embedding of the session-lifecycle and conversation-state core of the
`python_agent` repository (`src/python_agent/session.py` and
`src/python_agent/agent.py`), together with theorems settling the frozen
claims about its specification.

Modelling conventions:
* `datetime.now().isoformat()` timestamps are ISO-8601 strings whose
  lexicographic order agrees with chronological order at the precision the
  code uses; we model a timestamp as a natural number clock value.  Each
  `datetime.now()` call site receives the clock value as an explicit argument.
* Python dicts for messages carry the keys `role`, `content` and (for session
  messages only) `timestamp`; we model a message as a record whose
  `timestamp` field is `Option`al (`none` = key absent).
* Python exceptions are modelled as a pair of the exception class name and
  the message string; a caller distinguishes exceptions by class name.
* The sessions directory is an association list from filename to file
  content; a file either holds well-formed JSON decoding to a session record
  or is malformed (so that `json.load` raises `JSONDecodeError`).  Operating
  system failures (`OSError`) are environmental and are not modelled: `save`
  is modelled on its success path.
-/

namespace PythonAgent

/-- Clock values standing for `datetime.now().isoformat()` strings
(order-isomorphic to chronological order). -/
abbrev Timestamp := Nat

/-- A conversation message dict.  `Session.add_message` stores keys
`role`, `content`, `timestamp`; `Agent.add_message` stores only `role` and
`content`, so the `timestamp` key is optional (`none` = absent). -/
structure Msg where
  role : String
  content : String
  timestamp : Option Timestamp
deriving Repr, DecidableEq

/-- Python exception value: class name plus message.  Callers tell
exceptions apart by `cls` (the `except` clause matches on class). -/
structure PyExc where
  cls : String
  msg : String
deriving Repr, DecidableEq

/-- `Session`: individual session data container (`session.py`, class
`Session`). -/
structure Session where
  session_id : String
  messages : List Msg
  created_at : Timestamp
  updated_at : Timestamp
deriving Repr, DecidableEq

/-- `Session.__init__(session_id)`: empty history,
`created_at = now`, `updated_at = created_at`.  `now` is the value of the
single `datetime.now()` call. -/
def Session.init (session_id : String) (now : Timestamp) : Session :=
  { session_id := session_id, messages := [], created_at := now, updated_at := now }

/-- `Session.add_message(role, content)`: appends
`{"role": role, "content": content, "timestamp": now₁}` and sets
`updated_at = now₂`.  The method calls `datetime.now()` twice; `tMsg` and
`tUpd` are the two values in call order. -/
def Session.add_message (s : Session) (role content : String)
    (tMsg tUpd : Timestamp) : Session :=
  { s with
    messages := s.messages ++ [⟨role, content, some tMsg⟩]
    updated_at := tUpd }

/-- The JSON object stored for a session.  `Session.from_dict` accesses
`messages`, `created_at`, `updated_at` with `.get` (so those keys may be
absent) but `session_id` with `data["session_id"]`; every key is modelled as
optional to cover arbitrary records. -/
structure SessionRecord where
  session_id : Option String
  messages : Option (List Msg)
  created_at : Option Timestamp
  updated_at : Option Timestamp
deriving Repr, DecidableEq

/-- `Session.to_dict()`. -/
def Session.to_dict (s : Session) : SessionRecord :=
  { session_id := some s.session_id
    messages := some s.messages
    created_at := some s.created_at
    updated_at := some s.updated_at }

/-- `Session.from_dict(data)`: `cls(data["session_id"])` raises `KeyError`
when the key is absent; otherwise the constructor sets both timestamps to
`now` and the `.get` calls overwrite whatever keys are present. -/
def Session.from_dict (data : SessionRecord) (now : Timestamp) :
    Except PyExc Session :=
  match data.session_id with
  | none => .error ⟨"KeyError", "session_id"⟩
  | some sid =>
    .ok { session_id := sid
          messages := data.messages.getD []
          created_at := data.created_at.getD now
          updated_at := data.updated_at.getD now }

/-- Content of one file in the sessions directory. -/
inductive FileContent
  | valid (r : SessionRecord)
  | malformed
deriving Repr, DecidableEq

/-- The sessions directory: filename ↦ content. -/
abbrev Store := List (String × FileContent)

/-- Directory lookup by filename. -/
def Store.lookup (st : Store) (name : String) : Option FileContent :=
  (st.find? (fun p => p.1 == name)).map Prod.snd

/-- `SessionManager._get_session_path(session_id)`:
`sessions_dir / f"{session_id}.json"`, modelled as the filename. -/
def getSessionPath (session_id : String) : String := session_id ++ ".json"

/-- `SessionManager.save_session(session)` (success path): `json.dump` of
`session.to_dict()` fully replaces any prior file of the same name. -/
def save_session (st : Store) (s : Session) : Store :=
  (st.filter (fun p => p.1 != getSessionPath s.session_id))
    ++ [(getSessionPath s.session_id, .valid s.to_dict)]

/-- `SessionManager.load_session(session_id)`: raises
`SessionError(f"Session not found: {session_id}")` when the file does not
exist; catches `(OSError, json.JSONDecodeError)` and re-raises
`SessionError(f"Failed to load session {session_id}: {e}")`; a `KeyError`
from `Session.from_dict` is not caught and propagates. -/
def load_session (st : Store) (session_id : String) (now : Timestamp) :
    Except PyExc Session :=
  match st.lookup (getSessionPath session_id) with
  | none => .error ⟨"SessionError", "Session not found: " ++ session_id⟩
  | some .malformed =>
      .error ⟨"SessionError", "Failed to load session " ++ session_id⟩
  | some (.valid data) => Session.from_dict data now

/-- Whether a filename matches `glob("*.json")` (the pattern constrains
only the suffix). -/
def isJsonFile (f : String) : Bool :=
  ".json".data.isSuffixOf f.data

/-- `Path.stem` for a filename matched by `glob("*.json")`: drops the five
characters of the `.json` suffix, except that the bare name `".json"` has
no suffix in `pathlib` and is its own stem. -/
def jsonStem (f : String) : String :=
  if isJsonFile f && decide (5 < f.data.length)
  then ⟨f.data.take (f.data.length - 5)⟩ else f

/-- Python string comparison is lexicographic on code points; `sorted(ids,
reverse=True)` is the stable descending sort under it.  Lean's `List Char`
linear order is exactly code-point-lexicographic, so the comparison used by
`sorted(..., reverse=True)` is `b.data ≤ a.data`. -/
def sortedDesc (l : List String) : List String :=
  l.insertionSort (fun a b => b.data ≤ a.data)

/-- `SessionManager.list_sessions()`: `glob("*.json")`, take stems, then
`sorted(..., reverse=True)`. -/
def list_sessions (st : Store) : List String :=
  sortedDesc (((st.map Prod.fst).filter isJsonFile).map jsonStem)

/-- `SessionManager.session_exists(session_id)`. -/
def session_exists (st : Store) (session_id : String) : Bool :=
  (st.lookup (getSessionPath session_id)).isSome

/-- `Agent`: the fields the session-related behaviour touches
(`conversation_history` is the transcript, `current_session` the nullable
active session). -/
structure Agent where
  conversation_history : List Msg
  current_session : Option Session
deriving Repr, DecidableEq

/-- `Agent.add_message(role, content)`: appends `{"role", "content"}` (no
timestamp key) to the transcript and, when a session is active, mirrors via
`Session.add_message` (whose two `datetime.now()` values are `tMsg`,
`tUpd`). -/
def Agent.add_message (a : Agent) (role content : String)
    (tMsg tUpd : Timestamp) : Agent :=
  { conversation_history := a.conversation_history ++ [⟨role, content, none⟩]
    current_session :=
      a.current_session.map (fun s => s.add_message role content tMsg tUpd) }

/-- `Agent.start_new_session()`: `session_manager.create_session()` builds
`Session(generated_id)`; the generated id and the constructor's
`datetime.now()` value are the arguments. -/
def Agent.start_new_session (a : Agent) (newId : String) (now : Timestamp) :
    Agent :=
  { a with current_session := some (Session.init newId now) }

/-- `Agent.resume_from_session(session)`: sets `current_session` and
replaces `conversation_history` with `session.messages.copy()` (a shallow
copy of the same message dicts, timestamps included). -/
def Agent.resume_from_session (a : Agent) (s : Session) : Agent :=
  { a with current_session := some s, conversation_history := s.messages }

/-- `Agent.save_current_session()`: no-op without a session, else
`save_session`. -/
def Agent.save_current_session (a : Agent) (st : Store) : Store :=
  match a.current_session with
  | some s => save_session st s
  | none => st

/-- The characters removed by Python's `str.strip()` (the ASCII whitespace
set; the inputs the code meets are ASCII). -/
def isPythonSpace (c : Char) : Bool :=
  c = ' ' || c = '\t' || c = '\n' || c = '\r' || c = '\x0b' || c = '\x0c'

/-- Python `str.strip()`: remove leading and trailing whitespace. -/
def pyStrip (s : String) : String :=
  ⟨((s.data.dropWhile isPythonSpace).reverse.dropWhile isPythonSpace).reverse⟩

/-- Python `str.lower()` (ASCII case folding, which is all the exit-keyword
check needs). -/
def pyLower (s : String) : String :=
  ⟨s.data.map Char.toLower⟩

/-- State threaded through `Agent.interactive_loop`: the agent, the sessions
directory, the number of `save_current_session` calls made so far, and the
clock supplying `datetime.now()` values (each call site consumes one tick). -/
structure LoopState where
  agent : Agent
  store : Store
  saves : Nat
  time : Timestamp
deriving Repr, DecidableEq

/-- One iteration of the `while True` body of `Agent.interactive_loop` on
input line `raw`: `input(...).strip()`, then the exit-keyword check
(`user_input.lower() in ("exit", "quit", "bye")`) saves once and breaks;
then empty input `continue`s with no side effect; otherwise the user message
is appended, the completion collaborator is called (`complete` returns
`none` when `chat_completion` raises `ModelError`, in which case the error
is printed and the loop continues), and on success the assistant reply is
appended and the session saved.  The returned flag is `true` when the loop
`break`s. -/
def interactive_step (complete : List Msg → Option String) (st : LoopState)
    (raw : String) : LoopState × Bool :=
  let user_input := pyStrip raw
  if pyLower user_input ∈ (["exit", "quit", "bye"] : List String) then
    ({ st with store := st.agent.save_current_session st.store,
               saves := st.saves + 1 }, true)
  else if user_input = "" then
    (st, false)
  else
    let a1 := st.agent.add_message "user" user_input st.time (st.time + 1)
    match complete a1.conversation_history with
    | some response =>
        let a2 := a1.add_message "assistant" response (st.time + 2) (st.time + 3)
        ({ agent := a2, store := a2.save_current_session st.store,
           saves := st.saves + 1, time := st.time + 4 }, false)
    | none => ({ st with agent := a1, time := st.time + 2 }, false)

/-- The `while True` loop over a list of input lines, stopping at `break`;
the flag is `true` when the loop terminated via the exit transition. -/
def interactive_run (complete : List Msg → Option String) :
    LoopState → List String → LoopState × Bool
  | st, [] => (st, false)
  | st, raw :: rest =>
    match interactive_step complete st raw with
    | (st', true) => (st', true)
    | (st', false) => interactive_run complete st' rest

/-- `Agent.interactive_loop` entry: start a new session when none is
active, then run the loop. -/
def interactive_loop (complete : List Msg → Option String) (newId : String)
    (st : LoopState) (inputs : List String) : LoopState × Bool :=
  match st.agent.current_session with
  | none =>
      interactive_run complete
        { st with agent := st.agent.start_new_session newId st.time,
                  time := st.time + 1 } inputs
  | some _ => interactive_run complete st inputs

/-! ## Derived notions and helper lemmas -/

/-- Transcript–session mirroring: equal length with pairwise-equal `role`
and `content` fields, in order (stated as equality of the role/content
projections of the two message lists). -/
def Mirrors (a : Agent) (s : Session) : Prop :=
  a.conversation_history.map (fun m => (m.role, m.content))
    = s.messages.map (fun m => (m.role, m.content))

/-- A sequence of `Agent.add_message` calls: each call supplies role,
content, and the two `datetime.now()` values consumed when a session is
active. -/
def Agent.apply_calls (a : Agent)
    (calls : List (String × String × Timestamp × Timestamp)) : Agent :=
  calls.foldl (fun a c => a.add_message c.1 c.2.1 c.2.2.1 c.2.2.2) a

lemma add_message_mirrors {a : Agent} {s : Session}
    (h : a.current_session = some s) (hm : Mirrors a s)
    (r c : String) (tM tU : Timestamp) :
    (a.add_message r c tM tU).current_session
      = some (s.add_message r c tM tU) ∧
    Mirrors (a.add_message r c tM tU) (s.add_message r c tM tU) := by
  constructor
  · simp [Agent.add_message, h]
  · unfold Mirrors at hm ⊢
    simp [Agent.add_message, Session.add_message, hm]

lemma apply_calls_mirrors (calls : List (String × String × Timestamp × Timestamp)) :
    ∀ (a : Agent) (s : Session), a.current_session = some s → Mirrors a s →
      ∃ s', (a.apply_calls calls).current_session = some s' ∧
        Mirrors (a.apply_calls calls) s' := by
  induction calls with
  | nil => exact fun a s h hm => ⟨s, h, hm⟩
  | cons c rest ih =>
    intro a s h hm
    have step := add_message_mirrors h hm c.1 c.2.1 c.2.2.1 c.2.2.2
    have e : a.apply_calls (c :: rest)
        = (a.add_message c.1 c.2.1 c.2.2.1 c.2.2.2).apply_calls rest := rfl
    rw [e]
    exact ih _ _ step.1 step.2

lemma mirrors_length {a : Agent} {s : Session} (hm : Mirrors a s) :
    a.conversation_history.length = s.messages.length := by
  have := congrArg List.length hm
  simpa using this

lemma from_dict_to_dict (s : Session) (now : Timestamp) :
    Session.from_dict s.to_dict now = .ok s := rfl

lemma lookup_filter_append (st : Store) (name : String) (v : FileContent) :
    Store.lookup ((st.filter (fun p => p.1 != name)) ++ [(name, v)]) name
      = some v := by
  induction st with
  | nil => simp [Store.lookup, List.find?]
  | cons p rest ih =>
    by_cases hp : (p.1 == name) = true
    · have hb : (p.1 != name) = false := by simp [bne, hp]
      simp only [List.filter_cons, hb, if_neg Bool.false_ne_true]
      exact ih
    · have hp' : (p.1 == name) = false := by simpa using hp
      have hb : (p.1 != name) = true := by simp [bne, hp']
      simp only [List.filter_cons, hb, if_true, List.cons_append]
      unfold Store.lookup
      rw [List.find?_cons_of_neg _ (by simp [hp'])]
      exact ih

/-! ## Claims -/

/-- C1: starting from any state where the active session is set and the
transcript mirrors the session's messages (equal length, pairwise-equal
role and content), each `Agent.add_message` appends exactly one entry to
the transcript and one to the session in the same operation, and after any
sequence of such calls the transcript and session messages have equal
length with pairwise-equal role and content fields in order. -/
theorem claim_c1 (a : Agent) (s : Session)
    (h : a.current_session = some s) (hm : Mirrors a s) :
    (∀ r c tM tU,
      (a.add_message r c tM tU).conversation_history.length
          = a.conversation_history.length + 1 ∧
      (a.add_message r c tM tU).current_session
          = some (s.add_message r c tM tU) ∧
      (s.add_message r c tM tU).messages.length = s.messages.length + 1 ∧
      Mirrors (a.add_message r c tM tU) (s.add_message r c tM tU)) ∧
    (∀ calls : List (String × String × Timestamp × Timestamp),
      ∃ s', (a.apply_calls calls).current_session = some s' ∧
        Mirrors (a.apply_calls calls) s' ∧
        (a.apply_calls calls).conversation_history.length
          = s'.messages.length) := by
  constructor
  · intro r c tM tU
    have step := add_message_mirrors h hm r c tM tU
    exact ⟨by simp [Agent.add_message], step.1,
      by simp [Session.add_message], step.2⟩
  · intro calls
    obtain ⟨s', h1, h2⟩ := apply_calls_mirrors calls a s h hm
    exact ⟨s', h1, h2, mirrors_length h2⟩

/-- C1 witness: the single-call part of `claim_c1` instantiated at a
concrete agent, session, and call. -/
theorem claim_c1_witness :
    ((Agent.mk [] (some (Session.init "sid" 0))).add_message "user" "hi" 1 2).conversation_history.length
        = (Agent.mk [] (some (Session.init "sid" 0))).conversation_history.length + 1 ∧
    ((Agent.mk [] (some (Session.init "sid" 0))).add_message "user" "hi" 1 2).current_session
        = some ((Session.init "sid" 0).add_message "user" "hi" 1 2) ∧
    ((Session.init "sid" 0).add_message "user" "hi" 1 2).messages.length
        = (Session.init "sid" 0).messages.length + 1 ∧
    Mirrors ((Agent.mk [] (some (Session.init "sid" 0))).add_message "user" "hi" 1 2)
        ((Session.init "sid" 0).add_message "user" "hi" 1 2) :=
  (claim_c1 (Agent.mk [] (some (Session.init "sid" 0))) (Session.init "sid" 0)
    rfl rfl).1 "user" "hi" 1 2

/-- C2: serialization round-trip — `Session.from_dict (s.to_dict)` (at any
value of the constructor's `datetime.now()` clock) succeeds and returns a
session with identical id, messages (role, content and timestamp of every
message, in order), `created_at` and `updated_at`, i.e. it returns `s`
itself. -/
theorem claim_c2 (s : Session) (now : Timestamp) :
    Session.from_dict s.to_dict now = Except.ok s :=
  from_dict_to_dict s now

/-- C3: loading right after saving — for every directory state and session,
`load_session` of the just-saved id succeeds and returns a session equal to
the saved one in every field. -/
theorem claim_c3 (st : Store) (s : Session) (now : Timestamp) :
    load_session (save_session st s) s.session_id now = Except.ok s := by
  unfold load_session save_session
  rw [lookup_filter_append]
  exact from_dict_to_dict s now

/-- The exception class with which a `load_session` result failed (`none`
when it succeeded). -/
def excCls : Except PyExc Session → Option String
  | .error e => some e.cls
  | .ok _ => none

/-- C4 counterexample: the code has no distinct `NotFoundError` and
`StorageError` types — on a directory holding one malformed file `a.json`,
loading the missing id `"missing"` and loading the undecodable id `"a"`
both raise the single class `SessionError`, so a caller cannot tell the two
apart by exception type. -/
theorem claim_c4_counterexample :
    excCls (load_session [("a.json", FileContent.malformed)] "missing" 0)
        = excCls (load_session [("a.json", FileContent.malformed)] "a" 0) ∧
    excCls (load_session [("a.json", FileContent.malformed)] "missing" 0)
        = some "SessionError" := by decide

/-- C4 (amended): for every id with no stored file, `load_session` fails
with a `SessionError` whose message is `"Session not found: <id>"`, while a
file that exists but cannot be decoded fails with the same `SessionError`
class and message `"Failed to load session <id>"` — the two failure modes
share one exception type and differ only in message text. -/
theorem claim_c4_amended (st st2 : Store) (id : String) (now : Timestamp)
    (h : st.lookup (getSessionPath id) = none)
    (h2 : st2.lookup (getSessionPath id) = some .malformed) :
    load_session st id now
        = .error ⟨"SessionError", "Session not found: " ++ id⟩ ∧
    load_session st2 id now
        = .error ⟨"SessionError", "Failed to load session " ++ id⟩ := by
  refine ⟨?_, ?_⟩
  · unfold load_session
    rw [h]
  · unfold load_session
    rw [h2]

/-- C4 witness: `claim_c4_amended` at an empty directory and at a directory
holding one malformed file. -/
theorem claim_c4_witness :
    load_session [] "missing" 0
        = .error ⟨"SessionError", "Session not found: missing"⟩ ∧
    load_session [("missing.json", FileContent.malformed)] "missing" 0
        = .error ⟨"SessionError", "Failed to load session missing"⟩ :=
  claim_c4_amended [] [("missing.json", FileContent.malformed)] "missing" 0
    rfl rfl

/-- The specification's transcript schema for resumed messages: session
messages "stripped of timestamps".  Spec-side definition, kept only to
compare the spec's wording with what `Agent.resume_from_session` does. -/
def specStripTimestamp (m : Msg) : Msg := { m with timestamp := none }

/-- C5 counterexample: `resume_from_session` copies the session's message
dicts as they are, timestamps included — for a session holding one message
with a timestamp, the transcript after resuming differs from the
timestamp-stripped copy the claim describes. -/
theorem claim_c5_counterexample :
    ((Agent.mk [] none).resume_from_session
        ⟨"sid", [⟨"user", "hi", some 3⟩], 0, 3⟩).conversation_history
      ≠ ([⟨"user", "hi", some 3⟩] : List Msg).map specStripTimestamp := by
  decide

/-- C5 (amended): `resume_from_session S` sets the active session to `S`
and replaces the transcript wholesale with a copy of `S.messages` in
original order, retaining each message's timestamp field rather than
stripping it; before any append the transcript equals `S.messages`
exactly. -/
theorem claim_c5_amended (a : Agent) (s : Session) :
    (a.resume_from_session s).current_session = some s ∧
    (a.resume_from_session s).conversation_history = s.messages :=
  ⟨rfl, rfl⟩

lemma sortedDesc_pairwise (l : List String) :
    (sortedDesc l).Pairwise (fun a b => b.data ≤ a.data) := by
  haveI : IsTotal String (fun a b : String => b.data ≤ a.data) :=
    ⟨fun a b => le_total b.data a.data⟩
  haveI : IsTrans String (fun a b : String => b.data ≤ a.data) :=
    ⟨fun a b c h1 h2 => le_trans h2 h1⟩
  exact List.sorted_insertionSort _ l

/-- A directory with three stored sessions and one file that is not in the
`.json` storage format. -/
def storeC6 : Store :=
  [("2023-01-01-09-00-00.json", .valid ⟨some "2023-01-01-09-00-00", some [], some 0, some 0⟩),
   ("2023-01-02-11-00-00.json", .valid ⟨some "2023-01-02-11-00-00", some [], some 0, some 0⟩),
   ("2023-01-01-10-00-00.json", .valid ⟨some "2023-01-01-10-00-00", some [], some 0, some 0⟩),
   ("notes.txt", .malformed)]

/-- C6: `list_sessions` returns exactly the ids recovered by stripping the
`.json` suffix from the `.json`-suffixed filenames (files not in the
storage format are silently excluded), sorted in descending lexicographic
order; on the directory holding ids 2023-01-01-09-00-00,
2023-01-02-11-00-00, 2023-01-01-10-00-00 and a stray `notes.txt` it
returns the three ids newest-first. -/
theorem claim_c6 :
    list_sessions storeC6
      = ["2023-01-02-11-00-00", "2023-01-01-10-00-00", "2023-01-01-09-00-00"] ∧
    ∀ st : Store,
      (list_sessions st).Pairwise (fun a b => b.data ≤ a.data) ∧
      (list_sessions st).Perm
        (((st.map Prod.fst).filter isJsonFile).map jsonStem) := by
  refine ⟨by decide, fun st => ⟨sortedDesc_pairwise _, List.perm_insertionSort _ _⟩⟩

lemma interactive_step_blank (complete : List Msg → Option String)
    (st : LoopState) (raw : String) (h : pyStrip raw = "") :
    interactive_step complete st raw = (st, false) := by
  unfold interactive_step
  rw [h]
  exact rfl

lemma interactive_step_exit (complete : List Msg → Option String)
    (st : LoopState) (raw : String)
    (h : pyLower (pyStrip raw) ∈ (["exit", "quit", "bye"] : List String)) :
    interactive_step complete st raw
      = ({ st with store := st.agent.save_current_session st.store,
                   saves := st.saves + 1 }, true) := by
  unfold interactive_step
  rw [if_pos h]

lemma interactive_run_exit (complete : List Msg → Option String)
    (st : LoopState) :
    interactive_run complete st ["exit"]
      = ({ st with store := st.agent.save_current_session st.store,
                   saves := st.saves + 1 }, true) := rfl

/-- C7: in the interactive loop, empty or whitespace-only input self-loops
with no side effect (state unchanged, nothing appended, nothing persisted);
input whose stripped, lowercased form is one of the exit keywords saves the
active session exactly once and breaks; hence the input sequence
`["", "  ", "exit"]` leaves the agent (transcript and session) unchanged,
makes exactly one `save_current_session` call, and terminates the loop. -/
theorem claim_c7 :
    (∀ (complete : List Msg → Option String) (st : LoopState) (raw : String),
      pyStrip raw = "" → interactive_step complete st raw = (st, false)) ∧
    (∀ (complete : List Msg → Option String) (st : LoopState) (raw : String),
      pyLower (pyStrip raw) ∈ (["exit", "quit", "bye"] : List String) →
      interactive_step complete st raw
        = ({ st with store := st.agent.save_current_session st.store,
                     saves := st.saves + 1 }, true)) ∧
    (∀ (complete : List Msg → Option String) (st : LoopState),
      interactive_run complete st ["", "  ", "exit"]
        = ({ st with store := st.agent.save_current_session st.store,
                     saves := st.saves + 1 }, true)) :=
  ⟨interactive_step_blank, interactive_step_exit, fun _ _ => rfl⟩

/-- C7 witness: `claim_c7` instantiated at a concrete loop state, a
whitespace-only input, a case-insensitive exit keyword, and the input
sequence `["", "  ", "exit"]`. -/
theorem claim_c7_witness :
    interactive_step (fun _ => none) ⟨⟨[], none⟩, [], 0, 0⟩ " "
        = (⟨⟨[], none⟩, [], 0, 0⟩, false) ∧
    interactive_step (fun _ => none) ⟨⟨[], none⟩, [], 0, 0⟩ "EXIT"
        = (⟨⟨[], none⟩, [], 1, 0⟩, true) ∧
    interactive_run (fun _ => none) ⟨⟨[], none⟩, [], 0, 0⟩ ["", "  ", "exit"]
        = (⟨⟨[], none⟩, [], 1, 0⟩, true) :=
  ⟨claim_c7.1 (fun _ => none) ⟨⟨[], none⟩, [], 0, 0⟩ " " (by decide),
   claim_c7.2.1 (fun _ => none) ⟨⟨[], none⟩, [], 0, 0⟩ "EXIT" (by decide),
   claim_c7.2.2 (fun _ => none) ⟨⟨[], none⟩, [], 0, 0⟩⟩

/-- C8: when the completion collaborator raises `ModelError` on the
non-empty input `"Hello"`, the step appends the user message to both the
transcript and the active session, appends no assistant message, performs
no save, and the loop continues (`break` flag is `false`); a subsequent
`"exit"` from any state still saves exactly once and terminates cleanly. -/
theorem claim_c8 (complete : List Msg → Option String) (st : LoopState)
    (s : Session) (hs : st.agent.current_session = some s)
    (hc : complete ((st.agent.add_message "user" "Hello" st.time
      (st.time + 1)).conversation_history) = none) :
    interactive_step complete st "Hello"
      = ({ st with
           agent := st.agent.add_message "user" "Hello" st.time (st.time + 1),
           time := st.time + 2 }, false) ∧
    (st.agent.add_message "user" "Hello" st.time (st.time + 1)).conversation_history
      = st.agent.conversation_history ++ [⟨"user", "Hello", none⟩] ∧
    (st.agent.add_message "user" "Hello" st.time (st.time + 1)).current_session
      = some (s.add_message "user" "Hello" st.time (st.time + 1)) ∧
    (∀ st2 : LoopState, interactive_run complete st2 ["exit"]
      = ({ st2 with store := st2.agent.save_current_session st2.store,
                    saves := st2.saves + 1 }, true)) := by
  refine ⟨?_, by simp [Agent.add_message], by simp [Agent.add_message, hs],
    fun st2 => interactive_run_exit complete st2⟩
  exact congrArg
    (fun o : Option String =>
      match o with
      | some response =>
          let a2 := (st.agent.add_message "user" "Hello" st.time
            (st.time + 1)).add_message "assistant" response (st.time + 2)
            (st.time + 3)
          (({ agent := a2, store := a2.save_current_session st.store,
              saves := st.saves + 1, time := st.time + 4 } : LoopState), false)
      | none =>
          ({ st with
             agent := st.agent.add_message "user" "Hello" st.time (st.time + 1),
             time := st.time + 2 }, false))
    hc

/-- C8 witness: `claim_c8` at an always-failing collaborator and a concrete
loop state with an active session; the run on `["exit"]` is the theorem's
final conjunct applied to the state the failed turn left behind. -/
theorem claim_c8_witness :
    interactive_step (fun _ => none)
        ⟨⟨[], some (Session.init "sid" 0)⟩, [], 0, 5⟩ "Hello"
      = (⟨⟨[⟨"user", "Hello", none⟩],
            some ⟨"sid", [⟨"user", "Hello", some 5⟩], 0, 6⟩⟩, [], 0, 7⟩, false) ∧
    interactive_run (fun _ => none)
        ⟨⟨[⟨"user", "Hello", none⟩],
          some ⟨"sid", [⟨"user", "Hello", some 5⟩], 0, 6⟩⟩, [], 0, 7⟩ ["exit"]
      = (⟨⟨[⟨"user", "Hello", none⟩],
            some ⟨"sid", [⟨"user", "Hello", some 5⟩], 0, 6⟩⟩,
          [("sid.json",
            FileContent.valid ⟨some "sid", some [⟨"user", "Hello", some 5⟩],
              some 0, some 6⟩)], 1, 7⟩, true) :=
  ⟨(claim_c8 (fun _ => none) ⟨⟨[], some (Session.init "sid" 0)⟩, [], 0, 5⟩
      (Session.init "sid" 0) rfl rfl).1,
   (claim_c8 (fun _ => none) ⟨⟨[], some (Session.init "sid" 0)⟩, [], 0, 5⟩
      (Session.init "sid" 0) rfl rfl).2.2.2
     ⟨⟨[⟨"user", "Hello", none⟩],
       some ⟨"sid", [⟨"user", "Hello", some 5⟩], 0, 6⟩⟩, [], 0, 7⟩⟩

/-- C9 counterexample: `Session.from_dict` performs no validation of the
record's timestamps, so deserializing a record with `created_at = 1` and
`updated_at = 0` succeeds and produces a session violating
`updated_at >= created_at`. -/
theorem claim_c9_counterexample :
    Session.from_dict ⟨some "s", some [], some 1, some 0⟩ 7
        = .ok ⟨"s", [], 1, 0⟩ ∧
    ¬ ((⟨"s", [], 1, 0⟩ : Session).created_at
        ≤ (⟨"s", [], 1, 0⟩ : Session).updated_at) :=
  ⟨rfl, by decide⟩

/-- C9 (amended): `updated_at >= created_at` holds after construction
(both are set to the same `now`) and is preserved by `add_message` whenever
the wall clock does not run backwards (the new `updated_at` is at least the
old one); `from_dict` copies the record's timestamps verbatim (defaulting
absent ones to `now`) with no validation, so a deserialized session
satisfies the invariant exactly when the record's (defaulted) timestamps
already do — not for arbitrary records. -/
theorem claim_c9_amended :
    (∀ (id : String) (now : Timestamp),
      (Session.init id now).created_at = now ∧
      (Session.init id now).updated_at = now) ∧
    (∀ (s : Session) (r c : String) (tM tU : Timestamp),
      s.created_at ≤ s.updated_at → s.updated_at ≤ tU →
      (s.add_message r c tM tU).created_at = s.created_at ∧
      (s.add_message r c tM tU).updated_at = tU ∧
      (s.add_message r c tM tU).created_at
        ≤ (s.add_message r c tM tU).updated_at) ∧
    (∀ (r : SessionRecord) (now : Timestamp) (s : Session),
      Session.from_dict r now = .ok s →
      (s.created_at = r.created_at.getD now ∧
       s.updated_at = r.updated_at.getD now) ∧
      (r.created_at.getD now ≤ r.updated_at.getD now →
        s.created_at ≤ s.updated_at)) := by
  refine ⟨fun id now => ⟨rfl, rfl⟩,
    fun s r c tM tU h1 h2 => ⟨rfl, rfl, le_trans h1 h2⟩,
    fun r now s h => ?_⟩
  unfold Session.from_dict at h
  cases hr : r.session_id with
  | none => rw [hr] at h; exact absurd h (by simp)
  | some sid =>
    rw [hr] at h
    have hs := (Except.ok.injEq _ _).mp h.symm
    subst hs
    exact ⟨⟨rfl, rfl⟩, fun hle => hle⟩

/-- C9 witness: `claim_c9_amended` instantiated at a concrete session,
append call, and record. -/
theorem claim_c9_witness :
    ((Session.init "sid" 4).created_at = 4 ∧
      (Session.init "sid" 4).updated_at = 4) ∧
    (((⟨"sid", [], 1, 2⟩ : Session).add_message "user" "hi" 3 4).created_at = 1 ∧
      ((⟨"sid", [], 1, 2⟩ : Session).add_message "user" "hi" 3 4).updated_at = 4 ∧
      ((⟨"sid", [], 1, 2⟩ : Session).add_message "user" "hi" 3 4).created_at
        ≤ ((⟨"sid", [], 1, 2⟩ : Session).add_message "user" "hi" 3 4).updated_at) ∧
    (((⟨"s", [], 1, 2⟩ : Session).created_at
        = (some (1 : Timestamp)).getD 0 ∧
      (⟨"s", [], 1, 2⟩ : Session).updated_at
        = (some (2 : Timestamp)).getD 0) ∧
      ((some (1 : Timestamp)).getD 0 ≤ (some (2 : Timestamp)).getD 0 →
        (⟨"s", [], 1, 2⟩ : Session).created_at
          ≤ (⟨"s", [], 1, 2⟩ : Session).updated_at)) :=
  ⟨claim_c9_amended.1 "sid" 4,
   claim_c9_amended.2.1 ⟨"sid", [], 1, 2⟩ "user" "hi" 3 4 (by decide) (by decide),
   claim_c9_amended.2.2 ⟨some "s", some [], some 1, some 2⟩ 0 ⟨"s", [], 1, 2⟩ rfl⟩

/-- C10: deserialization leniency covers only `messages`, `created_at` and
`updated_at` (absent ones default); a record lacking `session_id` makes
`from_dict` raise a bare `KeyError`, and `load_session` on a file holding
valid JSON without `session_id` propagates that `KeyError` — a class
distinct from `SessionError` — instead of a typed storage error. -/
theorem claim_c10 (r : SessionRecord) (now : Timestamp)
    (hid : r.session_id = none) (st : Store) (id : String)
    (hf : st.lookup (getSessionPath id) = some (.valid r)) :
    Session.from_dict r now = .error ⟨"KeyError", "session_id"⟩ ∧
    load_session st id now = .error ⟨"KeyError", "session_id"⟩ ∧
    (⟨"KeyError", "session_id"⟩ : PyExc).cls ≠ "SessionError" ∧
    (∀ sid, Session.from_dict ⟨some sid, none, none, none⟩ now
        = .ok ⟨sid, [], now, now⟩) := by
  have hfd : Session.from_dict r now = .error ⟨"KeyError", "session_id"⟩ := by
    unfold Session.from_dict
    rw [hid]
  refine ⟨hfd, ?_, by decide, fun sid => rfl⟩
  unfold load_session
  rw [hf]
  exact hfd

/-- C10 witness: `claim_c10` at a concrete record without `session_id`
stored in a one-file directory. -/
theorem claim_c10_witness :
    Session.from_dict ⟨none, some [], some 0, some 0⟩ 3
        = .error ⟨"KeyError", "session_id"⟩ ∧
    load_session [("x.json", FileContent.valid ⟨none, some [], some 0, some 0⟩)]
        "x" 3 = .error ⟨"KeyError", "session_id"⟩ :=
  ⟨(claim_c10 ⟨none, some [], some 0, some 0⟩ 3 rfl
      [("x.json", FileContent.valid ⟨none, some [], some 0, some 0⟩)] "x" rfl).1,
   (claim_c10 ⟨none, some [], some 0, some 0⟩ 3 rfl
      [("x.json", FileContent.valid ⟨none, some [], some 0, some 0⟩)] "x" rfl).2.1⟩

end PythonAgent
